import Mathlib

/-!
Shallow embedding of the FEETECH STS UART text-command firmware
(`src/FeetechSTSTestUART/FeetechSTSTestUART.ino`).  Arduino `String`
operations are modelled over `List Char`, bus traffic is recorded as a
`List BusCall`, and the opaque SCServo driver is a `Bus` record of
response oracles (-1 being the sentinel failure value).  The serial
output of a handler is returned as a `List String`, one entry per
printed line.
-/

namespace Feetech

/-- The `isspace` characters honoured by Arduino `String.trim` and `atol`. -/
def isSpaceC (c : Char) : Bool :=
  c = ' ' || c = '\t' || c = '\n' || c = '\x0b' || c = '\x0c' || c = '\r'

/-- Value of a digit run, most significant digit first. -/
def digitsVal (l : List Char) : Nat :=
  l.foldl (fun a c => 10 * a + (c.toNat - 48)) 0

/-- Arduino `String.toInt` (C `atol`): skip leading whitespace, optional
sign, then consume digits; no digits yields 0. -/
def atol (l : List Char) : Int :=
  let l1 := l.dropWhile isSpaceC
  match l1 with
  | '-' :: r => -(digitsVal (r.takeWhile Char.isDigit) : Int)
  | '+' :: r => (digitsVal (r.takeWhile Char.isDigit) : Int)
  | _ => (digitsVal (l1.takeWhile Char.isDigit) : Int)

/-- Arduino `String.indexOf(ch, fromIndex)`: index of the first occurrence
at or after `fromIndex`, or -1.  Every call site passes `fromIndex ≥ 0`. -/
def idxOf (l : List Char) (c : Char) (start : Int) : Int :=
  match (l.drop start.toNat).findIdx? (fun x => x = c) with
  | some i => (start.toNat + i : Nat)
  | none => -1

/-- Arduino `String.substring(left, right)`: swaps inverted bounds, clamps
to the length, and returns the half-open slice.  Call sites only reach it
with indices ≥ 0. -/
def subStrI (l : List Char) (b e : Int) : List Char :=
  let b1 := min b.toNat e.toNat
  let e1 := max b.toNat e.toNat
  (l.take e1).drop b1

/-- Arduino `String.substring(left)`. -/
def subFromI (l : List Char) (b : Int) : List Char :=
  l.drop b.toNat

/-- Arduino `String.trim`: strip `isspace` characters from both ends. -/
def trimC (l : List Char) : List Char :=
  ((l.dropWhile isSpaceC).reverse.dropWhile isSpaceC).reverse

/-- C cast to `uint8_t`. -/
def u8 (x : Int) : Int := x % 256

/-- C cast to `uint16_t`. -/
def u16 (x : Int) : Int := x % 65536

/-- C cast to `int16_t`. -/
def i16 (x : Int) : Int := (x + 32768) % 65536 - 32768

/-- The two-step `if (x < lo) x = lo; if (x > hi) x = hi;` clamp pattern
used throughout the sketch. -/
def clampTo (lo hi x : Int) : Int :=
  let x1 := if x < lo then lo else x
  if x1 > hi then hi else x1

/-- Register addresses taken from the SCServo library header
(`SMS_STS.h`), which is not under `src/`; the exact values are irrelevant
to every claim. -/
def SMS_STS_ID : Nat := 5

/-- `SMS_STS_MODE` register address from the SCServo library header. -/
def SMS_STS_MODE : Nat := 33

/-- Wheel-mode speed bounds from the sketch (`SPEED_MIN` / `SPEED_MAX`). -/
def SPEED_MIN : Int := -4095

/-- Upper wheel-mode speed bound. -/
def SPEED_MAX : Int := 4095

/-- The compile-time `SERVO_IDS[]` roster used by STOP_ALL. -/
def SERVO_IDS : List Int := [100, 101, 102, 103, 104, 105, 106]

/-- Response oracles for the opaque SCServo driver (`SMS_STS st`): each
field gives the `int` result the corresponding driver call returns, -1
being the sentinel failure.  Calls whose result the sketch ignores
(`WritePosEx`, `SyncWritePosEx`, the fire-and-forget `EnableTorque`s)
need no oracle. -/
structure Bus where
  pingR : Int → Int
  writeByteR : Int → Nat → Int → Int
  wheelModeR : Int → Int
  readModeR : Int → Int
  readPosR : Int → Int
  writeSpeR : Int → Int → Int
  readSpeedR : Int → Int
  enableTorqueR : Int → Int → Int
  readLoadR : Int → Int
  readVoltageR : Int → Int
  readTemperR : Int → Int

/-- One recorded call into the bus driver, carrying the arguments the
handler passed at the call site (after any C integer casts the handler
itself performs). -/
inductive BusCall where
  | ping (id : Int)
  | unLockEprom (id : Int)
  | writeByte (id : Int) (reg : Nat) (val : Int)
  | lockEprom (id : Int)
  | wheelMode (id : Int)
  | readMode (id : Int)
  | writePosEx (id pos speed acc : Int)
  | syncWritePosEx (entries : List (Int × Int × Int × Int))
  | readPos (id : Int)
  | writeSpe (id speed : Int)
  | readSpeed (id : Int)
  | enableTorque (id val : Int)
  | readLoad (id : Int)
  | readVoltage (id : Int)
  | readTemper (id : Int)
deriving DecidableEq

/-- A handler result: the bus calls issued, in order, and the output
lines printed, in order. -/
abbrev HRes := List BusCall × List String

/-- PING <id>. -/
def handlePing (bus : Bus) (args : List Char) : HRes :=
  let id := atol args
  if id < 0 ∨ id > 253 then ([], ["ERROR: Invalid ID"])
  else
    let pingRes := bus.pingR id
    ([.ping id], [if pingRes ≠ -1 then "OK" else "ERROR: Ping fail"])

/-- Parse of the optional `[from] [to]` window; this code appears
verbatim in both `handleScanID` and `handleScanPos`. -/
def scanParse (args : List Char) : Int × Int :=
  if args.length ≠ 0 then
    let sp := idxOf args ' ' 0
    if sp < 0 then (atol args, 253)
    else (atol (subStrI args 0 sp), atol (subFromI args (sp + 1)))
  else (0, 253)

/-- The window normalisation of `handleScanID` / `handleScanPos`:
`from < 0 → 0`, then `to > 253 → 253`, then swap if inverted. -/
def normWindow (w : Int × Int) : Int × Int :=
  let f := if w.1 < 0 then 0 else w.1
  let t := if w.2 > 253 then 253 else w.2
  if t < f then (t, f) else (f, t)

/-- The `for (id = from; id <= to; id++)` ping loop of `handleScanID`,
driven by the iteration count; yields (bus calls, FOUND lines, found
count).  The FOUND line prints the ping response, as the sketch does. -/
def scanLoopAux (bus : Bus) : Nat → Int → List BusCall × List String × Nat
  | 0, _ => ([], [], 0)
  | fuel + 1, idv =>
    let resp := bus.pingR idv
    let r := scanLoopAux bus fuel (idv + 1)
    (.ping idv :: r.1,
      (if resp ≠ -1 then ("FOUND ID " ++ toString resp) :: r.2.1 else r.2.1),
      (if resp ≠ -1 then r.2.2 + 1 else r.2.2))

/-- Body of `handleScanID` on an already-normalised window. -/
def scanRun (bus : Bus) (w : Int × Int) : HRes :=
  let r := scanLoopAux bus (w.2 + 1 - w.1).toNat w.1
  (r.1,
    ("SCAN_ID from " ++ toString w.1 ++ " to " ++ toString w.2) ::
      (r.2.1 ++ ["FOUND_TOTAL " ++ toString r.2.2]))

/-- SCAN_ID [from] [to]. -/
def handleScanID (bus : Bus) (args : List Char) : HRes :=
  scanRun bus (normWindow (scanParse args))

/-- Index of the separating space of SET_ID's arguments. -/
def setIdSpace (args : List Char) : Int := idxOf args ' ' 0

/-- Parsed `oldId` of SET_ID. -/
def setIdOld (args : List Char) : Int := atol (subStrI args 0 (setIdSpace args))

/-- Parsed `newId` of SET_ID. -/
def setIdNew (args : List Char) : Int := atol (subFromI args (setIdSpace args + 1))

/-- SET_ID <oldId> <newId>: unlock EPROM at the old ID, write the ID
register, lock EPROM at the NEW ID — the lock is issued regardless of the
write result. -/
def handleSetID (bus : Bus) (args : List Char) : HRes :=
  if setIdSpace args < 0 then ([], ["ERROR: SET_ID usage: SET_ID <oldId> <newId>"])
  else
    let oldId := setIdOld args
    let newId := setIdNew args
    if oldId < 0 ∨ oldId > 253 ∨ newId < 0 ∨ newId > 253 then
      ([], ["ERROR: Invalid ID range"])
    else
      let writeOk : Bool := bus.writeByteR (u8 oldId) SMS_STS_ID (u8 newId) != 0
      ([.unLockEprom (u8 oldId), .writeByte (u8 oldId) SMS_STS_ID (u8 newId),
          .lockEprom (u8 newId)],
        [if writeOk then "OK" else "ERROR: write ID fail"])

/-- SET_SERVO <id>. -/
def handleSetServo (bus : Bus) (args : List Char) : HRes :=
  let id := atol args
  if id < 0 ∨ id > 253 then ([], ["ERROR: invalid ID"])
  else
    let r := bus.writeByteR (u8 id) SMS_STS_MODE 0
    if r ≠ -1 then
      ([.writeByte (u8 id) SMS_STS_MODE 0, .enableTorque (u8 id) 1], ["OK"])
    else ([.writeByte (u8 id) SMS_STS_MODE 0], ["ERROR"])

/-- SET_WHEEL <id>. -/
def handleSetWheel (bus : Bus) (args : List Char) : HRes :=
  let id := atol args
  if id < 0 ∨ id > 253 then ([], ["ERROR: invalid ID"])
  else
    ([.wheelMode (u8 id)], [if bus.wheelModeR (u8 id) ≠ -1 then "OK" else "ERROR"])

/-- READ_MODE <id>. -/
def handleReadMode (bus : Bus) (args : List Char) : HRes :=
  let id := atol args
  if id < 0 ∨ id > 253 then ([], ["ERROR: invalid ID"])
  else
    let m := bus.readModeR (u8 id)
    ([.readMode (u8 id)], [if m ≠ -1 then "MODE " ++ toString m else "ERROR"])

/-- First delimiter position of MOVE's arguments (`sp1`). -/
def moveSp1 (args : List Char) : Int := idxOf args ' ' 0

/-- Second delimiter position of MOVE's arguments (`sp2`). -/
def moveSp2 (args : List Char) : Int := idxOf args ' ' (moveSp1 args + 1)

/-- Third delimiter position of MOVE's arguments (`sp3`). -/
def moveSp3 (args : List Char) : Int := idxOf args ' ' (moveSp2 args + 1)

/-- MOVE's usage-failure condition: a required delimiter is structurally
absent. -/
def moveDelimMissing (args : List Char) : Prop :=
  moveSp1 args < 0 ∨ moveSp2 args < 0 ∨ moveSp3 args < 0

instance (args : List Char) : Decidable (moveDelimMissing args) :=
  inferInstanceAs (Decidable (_ ∨ _ ∨ _))

/-- Parsed id field of MOVE. -/
def moveId (args : List Char) : Int := atol (subStrI args 0 (moveSp1 args))

/-- MOVE <id> <pos> <speed> <acc>.  The `WritePosEx` result is ignored
by the sketch, so no oracle is consulted. -/
def handleMove (bus : Bus) (args : List Char) : HRes :=
  if moveDelimMissing args then
    ([], ["ERROR: MOVE usage: MOVE <id> <pos> <speed> <acc>"])
  else
    let id := moveId args
    let pos := atol (subStrI args (moveSp1 args + 1) (moveSp2 args))
    let speed := atol (subStrI args (moveSp2 args + 1) (moveSp3 args))
    let acc := atol (subFromI args (moveSp3 args + 1))
    if id < 0 ∨ id > 253 then ([], ["ERROR: invalid ID"])
    else
      ([.writePosEx (u8 id) (i16 (clampTo 0 4095 pos)) (u16 (clampTo 0 4095 speed))
          (u8 (clampTo 0 255 acc))], ["OK"])

/-- One entry of the SYNC_MOVE arrays:
`(IDs[i], Positions[i], Speeds[i], Accs[i])`. -/
abbrev SyncEntry := Int × Int × Int × Int

/-- One iteration of `handleSyncMove`'s tuple loop: parse four fields,
clamp, cast, and return the entry plus the updated `remain`; `none`
models the early `ERROR: not enough arguments` return. -/
def syncMoveStep (remain : List Char) : Option (SyncEntry × List Char) :=
  let spA := idxOf remain ' ' 0
  let spB := idxOf remain ' ' (spA + 1)
  let spC := idxOf remain ' ' (spB + 1)
  if spA < 0 ∨ spB < 0 ∨ spC < 0 then none
  else
    let spNext := idxOf remain ' ' (spC + 1)
    let accStr := if spNext ≥ 0 then subStrI remain (spC + 1) spNext
      else subFromI remain (spC + 1)
    let remain1 := trimC (if spNext ≥ 0 then subFromI remain (spNext + 1) else [])
    some ((u8 (atol (subStrI remain 0 spA)),
        i16 (clampTo 0 4095 (atol (subStrI remain (spA + 1) spB))),
        u16 (clampTo 0 4095 (atol (subStrI remain (spB + 1) spC))),
        u8 (clampTo 0 255 (atol accStr))), remain1)

/-- The `for (i = 0; i < n; i++)` tuple loop of `handleSyncMove`. -/
def syncMoveLoop : List Char → Nat → Option (List SyncEntry)
  | _, 0 => some []
  | remain, k + 1 =>
    match syncMoveStep remain with
    | none => none
    | some (e, remain1) =>
      match syncMoveLoop remain1 k with
      | none => none
      | some rest => some (e :: rest)

/-- SYNC_MOVE <n> <id pos speed acc> × n; issues the single
`SyncWritePosEx` batch call on success. -/
def handleSyncMove (bus : Bus) (args : List Char) : HRes :=
  let sp1 := idxOf args ' ' 0
  if sp1 < 0 then ([], ["ERROR: SYNC_MOVE usage"])
  else
    let n := atol (subStrI args 0 sp1)
    if n < 1 ∨ n > 12 then ([], ["ERROR: n out of range"])
    else
      match syncMoveLoop (trimC (subFromI args (sp1 + 1))) n.toNat with
      | none => ([], ["ERROR: not enough arguments for SYNC_MOVE"])
      | some entries => ([.syncWritePosEx entries], ["OK"])

/-- READ_POS <id>. -/
def handleReadPos (bus : Bus) (args : List Char) : HRes :=
  let id := atol args
  if id < 0 ∨ id > 253 then ([], ["ERROR: invalid ID"])
  else
    let pos := bus.readPosR id
    ([.readPos id], [if pos ≠ -1 then "POS " ++ toString pos else "ERROR: read pos fail"])

/-- The read loop of `handleScanPos`. -/
def scanPosLoopAux (bus : Bus) : Nat → Int → List BusCall × List String
  | 0, _ => ([], [])
  | fuel + 1, idv =>
    let pos := bus.readPosR idv
    let r := scanPosLoopAux bus fuel (idv + 1)
    (.readPos idv :: r.1,
      (if pos ≥ 0 then ("ID " ++ toString idv ++ " POS " ++ toString pos) :: r.2 else r.2))

/-- SCAN_POS [from] [to]; the window code is identical to SCAN_ID's. -/
def handleScanPos (bus : Bus) (args : List Char) : HRes :=
  let w := normWindow (scanParse args)
  let r := scanPosLoopAux bus (w.2 + 1 - w.1).toNat w.1
  (r.1, r.2 ++ ["DONE"])

/-- Delimiter position of SPEED's arguments. -/
def speedSp (args : List Char) : Int := idxOf args ' ' 0

/-- Parsed id field of SPEED. -/
def speedId (args : List Char) : Int := atol (subStrI args 0 (speedSp args))

/-- SPEED <id> <speed>: re-enable torque, then write the clamped signed
speed. -/
def handleSpeed (bus : Bus) (args : List Char) : HRes :=
  if speedSp args < 0 then ([], ["ERROR: SPEED usage: SPEED <id> <speed>"])
  else
    let id := speedId args
    let speed := atol (subFromI args (speedSp args + 1))
    if id < 0 ∨ id > 253 then ([], ["ERROR: invalid ID"])
    else
      let sp := i16 (clampTo SPEED_MIN SPEED_MAX speed)
      let r := bus.writeSpeR (u8 id) sp
      ([.enableTorque (u8 id) 1, .writeSpe (u8 id) sp],
        [if r ≠ -1 then "OK" else "ERROR"])

/-- The per-entry loop of `handleSyncSpeed`: `k` entries remain; the
source's `i < n - 1` test is `k ≠ 0` here.  Aborts the remaining batch on
the first failed `WriteSpe`. -/
def syncSpeedLoop (bus : Bus) : Nat → List Char → HRes
  | 0, _ => ([], ["OK"])
  | k + 1, remain =>
    let spA := idxOf remain ' ' 0
    if spA < 0 then ([], ["ERROR: not enough args"])
    else
      let idStr := subStrI remain 0 spA
      let remain1 := trimC (subFromI remain (spA + 1))
      let spB := idxOf remain1 ' ' 0
      let speedStr := if 0 ≤ spB ∧ k ≠ 0 then subStrI remain1 0 spB else remain1
      let remain2 := if 0 ≤ spB ∧ k ≠ 0 then trimC (subFromI remain1 (spB + 1))
        else ([] : List Char)
      let id := atol idStr
      if id < 0 ∨ id > 253 then ([], ["ERROR: invalid ID"])
      else
        let sp := i16 (clampTo SPEED_MIN SPEED_MAX (atol speedStr))
        if bus.writeSpeR (u8 id) sp = -1 then
          ([.enableTorque (u8 id) 1, .writeSpe (u8 id) sp], ["ERROR"])
        else
          let r := syncSpeedLoop bus k remain2
          (.enableTorque (u8 id) 1 :: .writeSpe (u8 id) sp :: r.1, r.2)

/-- SYNC_SPEED <n> <id speed> × n. -/
def handleSyncSpeed (bus : Bus) (args : List Char) : HRes :=
  let sp1 := idxOf args ' ' 0
  if sp1 < 0 then ([], ["ERROR: SYNC_SPEED usage"])
  else
    let n := atol (subStrI args 0 sp1)
    if n < 1 ∨ n > 12 then ([], ["ERROR: n out of range"])
    else syncSpeedLoop bus n.toNat (trimC (subFromI args (sp1 + 1)))

/-- STOP <id>. -/
def handleStop (bus : Bus) (args : List Char) : HRes :=
  let id := atol args
  if id < 0 ∨ id > 253 then ([], ["ERROR: invalid ID"])
  else
    let r := bus.writeSpeR (u8 id) 0
    ([.enableTorque (u8 id) 1, .writeSpe (u8 id) 0], [if r ≠ -1 then "OK" else "ERROR"])

/-- The roster loop of `handleStopAll`: torque on, then speed-zero write,
aborting everything after the first failed write. -/
def stopAllLoop (bus : Bus) : List Int → HRes
  | [] => ([], ["OK"])
  | id :: rest =>
    if bus.writeSpeR id 0 = -1 then
      ([.enableTorque id 1, .writeSpe id 0], ["ERROR"])
    else
      let r := stopAllLoop bus rest
      (.enableTorque id 1 :: .writeSpe id 0 :: r.1, r.2)

/-- STOP_ALL: speed-zero for every entry of `SERVO_IDS`. -/
def handleStopAll (bus : Bus) : HRes :=
  stopAllLoop bus SERVO_IDS

/-- READ_SPEED <id>. -/
def handleReadSpeed (bus : Bus) (args : List Char) : HRes :=
  let id := atol args
  if id < 0 ∨ id > 253 then ([], ["ERROR: invalid ID"])
  else
    let v := bus.readSpeedR (u8 id)
    ([.readSpeed (u8 id)], [if v ≠ -1 then "SPEED " ++ toString v else "ERROR"])

/-- ENABLE_TORQUE <id>. -/
def handleEnableTorque (bus : Bus) (args : List Char) : HRes :=
  let id := atol args
  if id < 0 ∨ id > 253 then ([], ["ERROR: Invalid ID"])
  else
    let res := bus.enableTorqueR (u8 id) 1
    ([.enableTorque (u8 id) 1], [if res ≠ -1 then "OK" else "ERROR: enable torque fail"])

/-- DISABLE_TORQUE <id>. -/
def handleDisableTorque (bus : Bus) (args : List Char) : HRes :=
  let id := atol args
  if id < 0 ∨ id > 253 then ([], ["ERROR: Invalid ID"])
  else
    let res := bus.enableTorqueR (u8 id) 0
    ([.enableTorque (u8 id) 0], [if res ≠ -1 then "OK" else "ERROR: disable torque fail"])

/-- READ_LOAD <id>. -/
def handleReadLoad (bus : Bus) (args : List Char) : HRes :=
  let id := atol args
  if id < 0 ∨ id > 253 then ([], ["ERROR: invalid ID"])
  else
    let load := bus.readLoadR id
    ([.readLoad id], [if load ≠ -1 then "LOAD " ++ toString load else "ERROR: read load fail"])

/-- READ_VOLTAGE <id>. -/
def handleReadVoltage (bus : Bus) (args : List Char) : HRes :=
  let id := atol args
  if id < 0 ∨ id > 253 then ([], ["ERROR: invalid ID"])
  else
    let volt := bus.readVoltageR id
    ([.readVoltage id],
      [if volt ≠ -1 then "VOLTAGE " ++ toString volt else "ERROR: read voltage fail"])

/-- READ_TEMP <id>. -/
def handleReadTemp (bus : Bus) (args : List Char) : HRes :=
  let id := atol args
  if id < 0 ∨ id > 253 then ([], ["ERROR: invalid ID"])
  else
    let temp := bus.readTemperR id
    ([.readTemper id],
      [if temp ≠ -1 then "TEMP " ++ toString temp else "ERROR: read temperature fail"])

/-- A bus on which every driver call fails with the sentinel. -/
def busNone : Bus :=
  ⟨fun _ => -1, fun _ _ _ => -1, fun _ => -1, fun _ => -1, fun _ => -1,
    fun _ _ => -1, fun _ => -1, fun _ _ => -1, fun _ => -1, fun _ => -1, fun _ => -1⟩

/-- A bus on which every driver call succeeds (result 1). -/
def busOk : Bus :=
  ⟨fun _ => 1, fun _ _ _ => 1, fun _ => 1, fun _ => 1, fun _ => 1,
    fun _ _ => 1, fun _ => 1, fun _ _ => 1, fun _ => 1, fun _ => 1, fun _ => 1⟩

/-- A bus whose speed writes fail exactly for device 101. -/
def busFail101 : Bus :=
  ⟨fun _ => 1, fun _ _ _ => 1, fun _ => 1, fun _ => 1, fun _ => 1,
    fun id _ => if id = 101 then -1 else 1, fun _ => 1, fun _ _ => 1,
    fun _ => 1, fun _ => 1, fun _ => 1⟩

/-- A bus on which `writeByte` returns 0, i.e. the SET_ID write fails. -/
def busW0 : Bus :=
  ⟨fun _ => 1, fun _ _ _ => 0, fun _ => 1, fun _ => 1, fun _ => 1,
    fun _ _ => 1, fun _ => 1, fun _ _ => 1, fun _ => 1, fun _ => 1, fun _ => 1⟩

/-- The `k` consecutive integers starting at `a`. -/
def rangeF : Nat → Int → List Int
  | 0, _ => []
  | k + 1, a => a :: rangeF k (a + 1)

/-- The integers of the inclusive interval `[a, b]`, ascending. -/
def intRange (a b : Int) : List Int := rangeF (b + 1 - a).toNat a

/-- The targets of the `ping` calls among a bus trace, in order. -/
def pingedIds (cs : List BusCall) : List Int :=
  cs.filterMap (fun c => match c with | .ping i => some i | _ => none)

/-- Recogniser for `lockEprom` calls. -/
def isLock : BusCall → Bool
  | .lockEprom _ => true
  | _ => false

theorem length_rangeF : ∀ (k : Nat) (a : Int), (rangeF k a).length = k := by
  intro k
  induction k with
  | zero => intro a; rfl
  | succ k ih => intro a; simp [rangeF, ih]

theorem mem_rangeF_le : ∀ (k : Nat) (a x : Int), x ∈ rangeF k a → a ≤ x := by
  intro k
  induction k with
  | zero => intro a x h; simp [rangeF] at h
  | succ k ih =>
    intro a x h
    rcases List.mem_cons.mp h with h1 | h1
    · omega
    · have := ih (a + 1) x h1; omega

theorem pairwise_rangeF : ∀ (k : Nat) (a : Int), (rangeF k a).Pairwise (· < ·) := by
  intro k
  induction k with
  | zero => intro a; simp [rangeF]
  | succ k ih =>
    intro a
    refine List.pairwise_cons.mpr ⟨?_, ih (a + 1)⟩
    intro x hx
    have := mem_rangeF_le k (a + 1) x hx
    omega

theorem scanLoopAux_fst (bus : Bus) :
    ∀ (fuel : Nat) (idv : Int),
      (scanLoopAux bus fuel idv).1 = (rangeF fuel idv).map BusCall.ping := by
  intro fuel
  induction fuel with
  | zero => intro idv; rfl
  | succ fuel ih => intro idv; simp [scanLoopAux, rangeF, ih]

theorem scanLoopAux_found (bus : Bus) :
    ∀ (fuel : Nat) (idv : Int),
      (scanLoopAux bus fuel idv).2.1 =
        ((rangeF fuel idv).filter (fun i => decide (bus.pingR i ≠ -1))).map
          (fun i => "FOUND ID " ++ toString (bus.pingR i)) := by
  intro fuel
  induction fuel with
  | zero => intro idv; rfl
  | succ fuel ih =>
    intro idv
    by_cases h : bus.pingR idv ≠ -1
    · simp [scanLoopAux, rangeF, if_pos h, List.filter_cons, h, ih]
    · simp [scanLoopAux, rangeF, if_neg h, List.filter_cons, h, ih]

theorem scanLoopAux_count (bus : Bus) :
    ∀ (fuel : Nat) (idv : Int),
      (scanLoopAux bus fuel idv).2.2 =
        ((rangeF fuel idv).filter (fun i => decide (bus.pingR i ≠ -1))).length := by
  intro fuel
  induction fuel with
  | zero => intro idv; rfl
  | succ fuel ih =>
    intro idv
    by_cases h : bus.pingR idv ≠ -1
    · simp [scanLoopAux, rangeF, if_pos h, List.filter_cons, h, ih]
    · simp [scanLoopAux, rangeF, if_neg h, List.filter_cons, h, ih]

theorem pingedIds_map_ping : ∀ l : List Int, pingedIds (l.map BusCall.ping) = l := by
  intro l
  induction l with
  | nil => rfl
  | cons x xs ih => simp [pingedIds, List.filterMap_cons] at ih ⊢; exact ih

theorem scanRun_pinged (bus : Bus) (w : Int × Int) :
    pingedIds (scanRun bus w).1 = intRange w.1 w.2 := by
  have h := scanLoopAux_fst bus (w.2 + 1 - w.1).toNat w.1
  simp only [scanRun, h]
  exact pingedIds_map_ping _

theorem u8_id (x : Int) (h1 : 0 ≤ x) (h2 : x < 256) : u8 x = x := by
  unfold u8; omega

theorem u16_id (x : Int) (h1 : 0 ≤ x) (h2 : x < 65536) : u16 x = x := by
  unfold u16; omega

theorem i16_id (x : Int) (h1 : -32768 ≤ x) (h2 : x < 32768) : i16 x = x := by
  unfold i16; omega

theorem clampTo_mem (lo hi x : Int) (h : lo ≤ hi) :
    lo ≤ clampTo lo hi x ∧ clampTo lo hi x ≤ hi := by
  simp only [clampTo]
  split_ifs <;> omega

theorem i16_clampPos (x : Int) :
    0 ≤ i16 (clampTo 0 4095 x) ∧ i16 (clampTo 0 4095 x) ≤ 4095 := by
  have h := clampTo_mem 0 4095 x (by omega)
  rw [i16_id _ (by omega) (by omega)]
  omega

theorem u16_clampPos (x : Int) :
    0 ≤ u16 (clampTo 0 4095 x) ∧ u16 (clampTo 0 4095 x) ≤ 4095 := by
  have h := clampTo_mem 0 4095 x (by omega)
  rw [u16_id _ (by omega) (by omega)]
  omega

theorem u8_clampAcc (x : Int) :
    0 ≤ u8 (clampTo 0 255 x) ∧ u8 (clampTo 0 255 x) ≤ 255 := by
  have h := clampTo_mem 0 255 x (by omega)
  rw [u8_id _ (by omega) (by omega)]
  omega

theorem syncMoveLoop_length :
    ∀ (k : Nat) (remain : List Char) (es : List SyncEntry),
      syncMoveLoop remain k = some es → es.length = k := by
  intro k
  induction k with
  | zero =>
    intro remain es h
    simp only [syncMoveLoop, Option.some.injEq] at h
    simp [← h]
  | succ k ih =>
    intro remain es h
    simp only [syncMoveLoop] at h
    split at h
    · exact absurd h (by simp)
    · rename_i e remain1 heq
      split at h
      · exact absurd h (by simp)
      · rename_i rest hl
        simp only [Option.some.injEq] at h
        subst h
        simp [ih remain1 rest hl]

theorem syncMoveStep_ranges (remain : List Char) (e : SyncEntry) (r1 : List Char)
    (h : syncMoveStep remain = some (e, r1)) :
    0 ≤ e.2.1 ∧ e.2.1 ≤ 4095 ∧ 0 ≤ e.2.2.1 ∧ e.2.2.1 ≤ 4095 ∧
      0 ≤ e.2.2.2 ∧ e.2.2.2 ≤ 255 := by
  simp only [syncMoveStep] at h
  split at h
  · exact absurd h (by simp)
  · simp only [Option.some.injEq, Prod.mk.injEq] at h
    obtain ⟨he, -⟩ := h
    subst he
    exact ⟨(i16_clampPos _).1, (i16_clampPos _).2, (u16_clampPos _).1,
      (u16_clampPos _).2, (u8_clampAcc _).1, (u8_clampAcc _).2⟩

theorem syncMoveLoop_ranges :
    ∀ (k : Nat) (remain : List Char) (es : List SyncEntry),
      syncMoveLoop remain k = some es →
      ∀ e ∈ es, 0 ≤ e.2.1 ∧ e.2.1 ≤ 4095 ∧ 0 ≤ e.2.2.1 ∧ e.2.2.1 ≤ 4095 ∧
        0 ≤ e.2.2.2 ∧ e.2.2.2 ≤ 255 := by
  intro k
  induction k with
  | zero =>
    intro remain es h e he
    simp only [syncMoveLoop, Option.some.injEq] at h
    subst h
    simp at he
  | succ k ih =>
    intro remain es h e he
    simp only [syncMoveLoop] at h
    split at h
    · exact absurd h (by simp)
    · rename_i e1 remain1 heq
      split at h
      · exact absurd h (by simp)
      · rename_i rest hl
        simp only [Option.some.injEq] at h
        subst h
        rcases List.mem_cons.mp he with h1 | h1
        · subst h1; exact syncMoveStep_ranges remain e remain1 heq
        · exact ih remain1 rest hl e h1

theorem stopAllLoop_ok (bus : Bus) :
    ∀ roster : List Int, (∀ id ∈ roster, bus.writeSpeR id 0 ≠ -1) →
      stopAllLoop bus roster =
        (roster.flatMap (fun id => [.enableTorque id 1, .writeSpe id 0]), ["OK"]) := by
  intro roster
  induction roster with
  | nil => intro _; rfl
  | cons id rest ih =>
    intro h
    have h1 : bus.writeSpeR id 0 ≠ -1 := h id (List.mem_cons_self _ _)
    have h2 := ih (fun i hi => h i (List.mem_cons_of_mem _ hi))
    simp [stopAllLoop, if_neg h1, h2]

theorem stopAllLoop_fail (bus : Bus) :
    ∀ (p : List Int) (f : Int) (rest : List Int),
      (∀ id ∈ p, bus.writeSpeR id 0 ≠ -1) → bus.writeSpeR f 0 = -1 →
      stopAllLoop bus (p ++ f :: rest) =
        ((p ++ [f]).flatMap (fun id => [.enableTorque id 1, .writeSpe id 0]), ["ERROR"]) := by
  intro p
  induction p with
  | nil =>
    intro f rest _ hf
    simp [stopAllLoop, if_pos hf]
  | cons id p1 ih =>
    intro f rest hp hf
    have h1 : bus.writeSpeR id 0 ≠ -1 := hp id (List.mem_cons_self _ _)
    have h2 := ih f rest (fun i hi => hp i (List.mem_cons_of_mem _ hi)) hf
    simp [List.cons_append, stopAllLoop, if_neg h1, h2]

/-- Shared normal-form of `handleSetID` once the usage and range checks
pass: the fixed three-call bus trace and the write-dependent response. -/
theorem setIDRun (bus : Bus) (args : List Char)
    (hsp : 0 ≤ setIdSpace args)
    (ho1 : 0 ≤ setIdOld args) (ho2 : setIdOld args ≤ 253)
    (hn1 : 0 ≤ setIdNew args) (hn2 : setIdNew args ≤ 253) :
    handleSetID bus args =
      ([.unLockEprom (setIdOld args),
          .writeByte (setIdOld args) SMS_STS_ID (setIdNew args),
          .lockEprom (setIdNew args)],
        [if bus.writeByteR (setIdOld args) SMS_STS_ID (setIdNew args) != 0 then "OK"
          else "ERROR: write ID fail"]) := by
  have hu1 : u8 (setIdOld args) = setIdOld args := u8_id _ ho1 (by omega)
  have hu2 : u8 (setIdNew args) = setIdNew args := u8_id _ hn1 (by omega)
  simp only [handleSetID]
  rw [if_neg (by omega), if_neg (by omega), hu1, hu2]

/-- Claim C2: for `SYNC_MOVE 2 100 2048 400 50 101 5000 5000 300`, the
tuple for device 101 has position and speed clamped to 4095 (and its
acceleration to 255) before the single `SyncWritePosEx` batch call, while
device 100's tuple (2048, 400, 50) passes through unchanged; in general
every parsed batch entry has position in [0,4095], speed in [0,4095] and
acceleration in [0,255]. -/
theorem syncMove_clamp (bus : Bus) (remain : List Char) (k : Nat)
    (entries : List SyncEntry) (h : syncMoveLoop remain k = some entries) :
    handleSyncMove bus (String.toList "2 100 2048 400 50 101 5000 5000 300") =
      ([.syncWritePosEx [(100, 2048, 400, 50), (101, 4095, 4095, 255)]], ["OK"]) ∧
    ∀ e ∈ entries, 0 ≤ e.2.1 ∧ e.2.1 ≤ 4095 ∧ 0 ≤ e.2.2.1 ∧ e.2.2.1 ≤ 4095 ∧
      0 ≤ e.2.2.2 ∧ e.2.2.2 ≤ 255 :=
  ⟨by rfl, syncMoveLoop_ranges k remain entries h⟩

/-- Witness for C2 at a concrete one-entry batch. -/
theorem syncMove_clamp_witness :
    syncMoveLoop (String.toList "100 2048 400 50") 1 =
      some [((100 : Int), (2048 : Int), (400 : Int), (50 : Int))] ∧
    ∀ e ∈ [((100 : Int), (2048 : Int), (400 : Int), (50 : Int))],
      0 ≤ e.2.1 ∧ e.2.1 ≤ 4095 ∧ 0 ≤ e.2.2.1 ∧ e.2.2.1 ≤ 4095 ∧
        0 ≤ e.2.2.2 ∧ e.2.2.2 ≤ 255 :=
  ⟨by decide, (syncMove_clamp busNone (String.toList "100 2048 400 50") 1
      [(100, 2048, 400, 50)] (by decide)).2⟩

/-- Claim C3: SCAN_ID with an empty argument tail scans exactly the
window [0,253], issuing exactly 254 ping bus calls, one per ID, in
strictly ascending ID order, and its output is the header, one FOUND line
per responder, and a final FOUND_TOTAL count line. -/
theorem scanID_default_window (bus : Bus) :
    (handleScanID bus []).1 = (intRange 0 253).map BusCall.ping ∧
    (handleScanID bus []).1.length = 254 ∧
    (intRange 0 253).Pairwise (· < ·) ∧
    (handleScanID bus []).2 =
      "SCAN_ID from 0 to 253" ::
        (((intRange 0 253).filter (fun i => decide (bus.pingR i ≠ -1))).map
            (fun i => "FOUND ID " ++ toString (bus.pingR i)) ++
          ["FOUND_TOTAL " ++
            toString ((intRange 0 253).filter
              (fun i => decide (bus.pingR i ≠ -1))).length]) := by
  have hw : normWindow (scanParse []) = (0, 253) := by decide
  refine ⟨?_, ?_, pairwise_rangeF _ _, ?_⟩
  · unfold handleScanID
    rw [hw]
    simp [scanRun, scanLoopAux_fst, intRange]
  · unfold handleScanID
    rw [hw]
    simp [scanRun, scanLoopAux_fst, length_rangeF]
  · unfold handleScanID
    rw [hw]
    simp [scanRun, scanLoopAux_found, scanLoopAux_count, intRange]
    decide

/-- Claim C4: whenever the parsed SCAN_ID bounds satisfy `from > to`, the
handler swaps them and scans the normalised window in strictly ascending
order; for in-range inverted bounds the scanned IDs are exactly the
interval [to, from], and in particular `SCAN_ID 110 90` pings exactly
[90,110] ascending. -/
theorem scanID_swap (bus : Bus) (f t : Int) (h : t < f) :
    pingedIds (scanRun bus (normWindow (f, t))).1 =
      intRange (normWindow (f, t)).1 (normWindow (f, t)).2 ∧
    (pingedIds (scanRun bus (normWindow (f, t))).1).Pairwise (· < ·) ∧
    (0 ≤ t → f ≤ 253 → pingedIds (scanRun bus (normWindow (f, t))).1 = intRange t f) ∧
    pingedIds (handleScanID bus (String.toList "110 90")).1 = intRange 90 110 := by
  refine ⟨scanRun_pinged bus _, ?_, ?_, ?_⟩
  · rw [scanRun_pinged]
    exact pairwise_rangeF _ _
  · intro h0 h253
    have hnorm : normWindow (f, t) = (t, f) := by
      simp only [normWindow]
      split_ifs <;> first | rfl | (exfalso; omega)
    rw [hnorm, scanRun_pinged]
  · have hp : scanParse (String.toList "110 90") = (110, 90) := by decide
    have hn : normWindow (110, 90) = (90, 110) := by decide
    unfold handleScanID
    rw [hp, hn, scanRun_pinged]

/-- Witness for C4 at the inverted window (110, 90). -/
theorem scanID_swap_witness :
    (90 : Int) < 110 ∧
    pingedIds (handleScanID busNone (String.toList "110 90")).1 = intRange 90 110 :=
  ⟨by decide, (scanID_swap busNone 110 90 (by decide)).2.2.2⟩

/-- Claim C5: a SYNC_MOVE whose parsed batch count lies outside [1,12] is
rejected with an error line and zero bus calls; conversely every accepted
batch that reaches the single batch write has between 1 and 12 entries. -/
theorem syncMove_reject (bus : Bus) (args : List Char)
    (h1 : 0 ≤ idxOf args ' ' 0)
    (h2 : atol (subStrI args 0 (idxOf args ' ' 0)) < 1 ∨
      atol (subStrI args 0 (idxOf args ' ' 0)) > 12) :
    handleSyncMove bus args = ([], ["ERROR: n out of range"]) ∧
    ∀ (args2 : List Char) (entries : List SyncEntry),
      handleSyncMove bus args2 = ([.syncWritePosEx entries], ["OK"]) →
      1 ≤ entries.length ∧ entries.length ≤ 12 := by
  constructor
  · simp only [handleSyncMove]
    rw [if_neg (by omega), if_pos h2]
  · intro args2 entries he
    simp only [handleSyncMove] at he
    split at he
    · exact absurd he (by simp)
    · split at he
      · exact absurd he (by simp)
      · rename_i hrange
        split at he
        · exact absurd he (by simp)
        · rename_i es hl
          have hes : es = entries := by simpa using he
          subst hes
          have hlen := syncMoveLoop_length _ _ _ hl
          omega

/-- Witness for C5 at `SYNC_MOVE 13 ...`. -/
theorem syncMove_reject_witness :
    0 ≤ idxOf (String.toList "13 1 2 3 4") ' ' 0 ∧
    atol (subStrI (String.toList "13 1 2 3 4") 0
      (idxOf (String.toList "13 1 2 3 4") ' ' 0)) > 12 ∧
    handleSyncMove busNone (String.toList "13 1 2 3 4") =
      ([], ["ERROR: n out of range"]) :=
  ⟨by decide, by decide,
    (syncMove_reject busNone (String.toList "13 1 2 3 4") (by decide)
      (Or.inr (by decide))).1⟩

/-- Claim C6: STOP_ALL issues exactly one speed-zero write per entry of
the `SERVO_IDS` roster, visiting entries in roster order (each prefixed by
its torque-enable), emitting OK when every write succeeds; on the first
failing speed-zero write it emits ERROR and performs no bus calls for the
remaining roster entries. -/
theorem stopAll_spec (bus : Bus) :
    ((∀ id ∈ SERVO_IDS, bus.writeSpeR id 0 ≠ -1) →
      handleStopAll bus =
        (SERVO_IDS.flatMap (fun id => [.enableTorque id 1, .writeSpe id 0]), ["OK"])) ∧
    (∀ (p : List Int) (f : Int) (rest : List Int), SERVO_IDS = p ++ f :: rest →
      (∀ id ∈ p, bus.writeSpeR id 0 ≠ -1) → bus.writeSpeR f 0 = -1 →
      handleStopAll bus =
        ((p ++ [f]).flatMap (fun id => [.enableTorque id 1, .writeSpe id 0]),
          ["ERROR"])) := by
  constructor
  · intro h
    exact stopAllLoop_ok bus SERVO_IDS h
  · intro p f rest hS hp hf
    unfold handleStopAll
    rw [hS]
    exact stopAllLoop_fail bus p f rest hp hf

/-- Witness for C6: all writes succeed on `busOk`; on `busFail101` the
write for 101 fails and the roster is cut short. -/
theorem stopAll_spec_witness :
    handleStopAll busOk =
      (SERVO_IDS.flatMap (fun id => [.enableTorque id 1, .writeSpe id 0]), ["OK"]) ∧
    handleStopAll busFail101 =
      (([100, 101] : List Int).flatMap
        (fun id => [.enableTorque id 1, .writeSpe id 0]), ["ERROR"]) :=
  ⟨(stopAll_spec busOk).1 (by decide),
    (stopAll_spec busFail101).2 [100] 101 [102, 103, 104, 105, 106]
      (by decide) (by decide) (by decide)⟩

/-- Claim C7: a SET_ID invocation with both parsed IDs in [0,253]
performs the bus calls unlock-EPROM, write-ID, lock-EPROM, in that order,
for every bus — in particular the lock call is issued even when the
write-ID call fails, and the failure is only then reported. -/
theorem setID_relock (bus : Bus) (args : List Char)
    (hsp : 0 ≤ setIdSpace args)
    (ho1 : 0 ≤ setIdOld args) (ho2 : setIdOld args ≤ 253)
    (hn1 : 0 ≤ setIdNew args) (hn2 : setIdNew args ≤ 253) :
    (handleSetID bus args).1 =
      [.unLockEprom (setIdOld args),
        .writeByte (setIdOld args) SMS_STS_ID (setIdNew args),
        .lockEprom (setIdNew args)] ∧
    (bus.writeByteR (setIdOld args) SMS_STS_ID (setIdNew args) = 0 →
      (handleSetID bus args).2 = ["ERROR: write ID fail"]) := by
  rw [setIDRun bus args hsp ho1 ho2 hn1 hn2]
  constructor
  · rfl
  · intro hw
    rw [hw]
    simp

/-- Witness for C7 at `SET_ID 5 7` on a bus whose write fails. -/
theorem setID_relock_witness :
    0 ≤ setIdSpace (String.toList "5 7") ∧
    0 ≤ setIdOld (String.toList "5 7") ∧ setIdOld (String.toList "5 7") ≤ 253 ∧
    0 ≤ setIdNew (String.toList "5 7") ∧ setIdNew (String.toList "5 7") ≤ 253 ∧
    (handleSetID busW0 (String.toList "5 7")).1 =
      [.unLockEprom (setIdOld (String.toList "5 7")),
        .writeByte (setIdOld (String.toList "5 7")) SMS_STS_ID
          (setIdNew (String.toList "5 7")),
        .lockEprom (setIdNew (String.toList "5 7"))] :=
  ⟨by decide, by decide, by decide, by decide, by decide,
    (setID_relock busW0 (String.toList "5 7") (by decide) (by decide) (by decide)
      (by decide) (by decide)).1⟩

/-- Claim C8: in every SET_ID execution that reaches the bus phase, the
only lock-EPROM call is addressed to the NEW ID; the unlock call is
addressed to the old ID, and when old ≠ new no lock call addressed to the
old ID occurs — so a device still holding the old ID after a failed write
is left unlocked. -/
theorem setID_lock_newId (bus : Bus) (args : List Char)
    (hsp : 0 ≤ setIdSpace args)
    (ho1 : 0 ≤ setIdOld args) (ho2 : setIdOld args ≤ 253)
    (hn1 : 0 ≤ setIdNew args) (hn2 : setIdNew args ≤ 253) :
    (handleSetID bus args).1.filter isLock = [.lockEprom (setIdNew args)] ∧
    BusCall.unLockEprom (setIdOld args) ∈ (handleSetID bus args).1 ∧
    (setIdOld args ≠ setIdNew args →
      BusCall.lockEprom (setIdOld args) ∉ (handleSetID bus args).1) := by
  rw [setIDRun bus args hsp ho1 ho2 hn1 hn2]
  refine ⟨by simp [isLock, List.filter], by simp, ?_⟩
  intro hne
  simp [hne]

/-- Witness for C8 at `SET_ID 3 9` on a bus whose write fails. -/
theorem setID_lock_newId_witness :
    0 ≤ setIdSpace (String.toList "3 9") ∧
    setIdOld (String.toList "3 9") ≠ setIdNew (String.toList "3 9") ∧
    BusCall.lockEprom (setIdOld (String.toList "3 9")) ∉
      (handleSetID busW0 (String.toList "3 9")).1 :=
  ⟨by decide, by decide,
    (setID_lock_newId busW0 (String.toList "3 9") (by decide) (by decide) (by decide)
      (by decide) (by decide)).2.2 (by decide)⟩

/-- The SYNC_SPEED usage line is never produced by the per-entry loop:
its only outputs are OK, the not-enough-args, invalid-ID and bus-error
lines. -/
theorem syncSpeedLoop_no_usage (bus : Bus) :
    ∀ (k : Nat) (remain : List Char),
      "ERROR: SYNC_SPEED usage" ∉ (syncSpeedLoop bus k remain).2 := by
  intro k
  induction k with
  | zero => intro remain; simp [syncSpeedLoop]
  | succ k ih =>
    intro remain
    simp only [syncSpeedLoop]
    split_ifs <;> simp <;> exact ih _

/-- Counterexample to claim C9 as stated: for SYNC_MOVE and SYNC_SPEED,
a batch-count field that does not parse as a number silently becomes 0,
but the command then does NOT proceed — the 0 fails the [1,12] count
validation and the command is rejected with zero bus calls. -/
theorem usageParse_counterexample :
    atol (String.toList "a") = 0 ∧
    handleSyncMove busNone (String.toList "a 1 2 3 4") =
      ([], ["ERROR: n out of range"]) ∧
    handleSyncSpeed busNone (String.toList "a 1 2") =
      ([], ["ERROR: n out of range"]) :=
  ⟨by decide, by decide, by decide⟩

/-- Claim C9 as amended: for every usage-sensitive command (MOVE, SET_ID,
SPEED, SYNC_MOVE, SYNC_SPEED) the usage-error line is emitted exactly
when a required space delimiter is structurally absent from the argument
tail — never because a field fails to parse as a number; an unparsable
field silently becomes 0 and the command proceeds with that 0, unless the
0 itself fails a later validation (the SYNC_MOVE / SYNC_SPEED batch
count, per the counterexample).  In particular `MOVE a b c d` sends
id 0, pos 0, speed 0, acc 0 to the bus and answers OK, and the other
commands likewise reach their bus calls on unparsable fields. -/
theorem usageParse_structural (bus : Bus) :
    handleMove bus (String.toList "a b c d") = ([.writePosEx 0 0 0 0], ["OK"]) ∧
    (∀ args : List Char,
      ("ERROR: MOVE usage: MOVE <id> <pos> <speed> <acc>" ∈ (handleMove bus args).2 ↔
        moveDelimMissing args)) ∧
    (∀ args : List Char,
      ("ERROR: SET_ID usage: SET_ID <oldId> <newId>" ∈ (handleSetID bus args).2 ↔
        setIdSpace args < 0)) ∧
    (handleSetID bus (String.toList "x y")).1 =
      [.unLockEprom 0, .writeByte 0 SMS_STS_ID 0, .lockEprom 0] ∧
    (∀ args : List Char,
      ("ERROR: SPEED usage: SPEED <id> <speed>" ∈ (handleSpeed bus args).2 ↔
        speedSp args < 0)) ∧
    (handleSpeed bus (String.toList "x y")).1 = [.enableTorque 0 1, .writeSpe 0 0] ∧
    (∀ args : List Char,
      ("ERROR: SYNC_MOVE usage" ∈ (handleSyncMove bus args).2 ↔
        idxOf args ' ' 0 < 0)) ∧
    handleSyncMove bus (String.toList "1 x y z w") =
      ([.syncWritePosEx [(0, 0, 0, 0)]], ["OK"]) ∧
    (∀ args : List Char,
      ("ERROR: SYNC_SPEED usage" ∈ (handleSyncSpeed bus args).2 ↔
        idxOf args ' ' 0 < 0)) ∧
    (handleSyncSpeed busNone (String.toList "1 5 x")).1 =
      [.enableTorque 5 1, .writeSpe 5 0] ∧
    (handleSyncSpeed busOk (String.toList "1 5 x")).1 =
      [.enableTorque 5 1, .writeSpe 5 0] := by
  refine ⟨by rfl, ?_, ?_, by rfl, ?_, by rfl, ?_, by rfl, ?_, by decide, by decide⟩
  · intro args
    constructor
    · intro hm
      by_contra hnm
      simp only [handleMove, if_neg hnm] at hm
      split at hm
      · simp at hm
      · simp at hm
    · intro hm
      simp [handleMove, if_pos hm]
  · intro args
    constructor
    · intro hm
      by_contra hn
      simp only [handleSetID] at hm
      rw [if_neg hn] at hm
      split at hm
      · simp at hm
      · split at hm <;> simp at hm
    · intro hm
      simp only [handleSetID]
      rw [if_pos hm]
      simp
  · intro args
    constructor
    · intro hm
      by_contra hn
      simp only [handleSpeed] at hm
      rw [if_neg hn] at hm
      split at hm
      · simp at hm
      · split at hm <;> simp at hm
    · intro hm
      simp only [handleSpeed]
      rw [if_pos hm]
      simp
  · intro args
    constructor
    · intro hm
      by_contra hn
      simp only [handleSyncMove] at hm
      rw [if_neg hn] at hm
      split at hm
      · simp at hm
      · split at hm <;> simp at hm
    · intro hm
      simp only [handleSyncMove]
      rw [if_pos hm]
      simp
  · intro args
    constructor
    · intro hm
      by_contra hn
      simp only [handleSyncSpeed] at hm
      rw [if_neg hn] at hm
      split at hm
      · simp at hm
      · exact absurd hm (syncSpeedLoop_no_usage bus _ _)
    · intro hm
      simp only [handleSyncSpeed]
      rw [if_pos hm]
      simp

/-- Claim C10: a MOVE whose delimiters are present and whose parsed id
lies in [0,253] answers exactly OK on every bus — the `WritePosEx` result
is never consulted, so MOVE has no bus-failure response. -/
theorem move_no_bus_failure (bus : Bus) (args : List Char)
    (h1 : ¬ moveDelimMissing args) (h2 : 0 ≤ moveId args) (h3 : moveId args ≤ 253) :
    (handleMove bus args).2 = ["OK"] := by
  simp only [handleMove, if_neg h1]
  rw [if_neg (by omega : ¬ (moveId args < 0 ∨ moveId args > 253))]

/-- Witness for C10 at `MOVE 1 2 3 4` on the all-failing bus. -/
theorem move_no_bus_failure_witness :
    ¬ moveDelimMissing (String.toList "1 2 3 4") ∧
    0 ≤ moveId (String.toList "1 2 3 4") ∧ moveId (String.toList "1 2 3 4") ≤ 253 ∧
    (handleMove busNone (String.toList "1 2 3 4")).2 = ["OK"] :=
  ⟨by decide, by decide, by decide,
    move_no_bus_failure busNone (String.toList "1 2 3 4") (by decide) (by decide)
      (by decide)⟩

/-- Counterexample to claim C1 as stated: `SYNC_MOVE 1 255 0 0 0`
supplies the device ID 255 ∉ [0,253], yet the handler performs a bus call
carrying ID 255 and answers OK instead of a validation error; and
`SCAN_ID 300` pings ID 254 ∉ [0,253] on the bus. -/
theorem idRange_counterexample :
    handleSyncMove busNone (String.toList "1 255 0 0 0") =
      ([.syncWritePosEx [(255, 0, 0, 0)]], ["OK"]) ∧
    BusCall.ping 254 ∈ (handleScanID busNone (String.toList "300")).1 := by
  constructor
  · decide
  · decide

/-- Claim C1 as amended: every command that validates a device ID — all
the single-target commands — rejects an out-of-range parsed ID with a
validation error and zero bus calls; SYNC_MOVE tuple IDs and the SCAN
window bounds are exempt (see the counterexample). -/
theorem idRange_validation (bus : Bus) (args : List Char)
    (h : atol args < 0 ∨ atol args > 253) :
    handlePing bus args = ([], ["ERROR: Invalid ID"]) ∧
    handleSetServo bus args = ([], ["ERROR: invalid ID"]) ∧
    handleSetWheel bus args = ([], ["ERROR: invalid ID"]) ∧
    handleReadMode bus args = ([], ["ERROR: invalid ID"]) ∧
    handleReadPos bus args = ([], ["ERROR: invalid ID"]) ∧
    handleStop bus args = ([], ["ERROR: invalid ID"]) ∧
    handleReadSpeed bus args = ([], ["ERROR: invalid ID"]) ∧
    handleEnableTorque bus args = ([], ["ERROR: Invalid ID"]) ∧
    handleDisableTorque bus args = ([], ["ERROR: Invalid ID"]) ∧
    handleReadLoad bus args = ([], ["ERROR: invalid ID"]) ∧
    handleReadVoltage bus args = ([], ["ERROR: invalid ID"]) ∧
    handleReadTemp bus args = ([], ["ERROR: invalid ID"]) ∧
    (∀ args2 : List Char, 0 ≤ setIdSpace args2 →
      (setIdOld args2 < 0 ∨ setIdOld args2 > 253 ∨
        setIdNew args2 < 0 ∨ setIdNew args2 > 253) →
      handleSetID bus args2 = ([], ["ERROR: Invalid ID range"])) ∧
    (∀ args3 : List Char, ¬ moveDelimMissing args3 →
      (moveId args3 < 0 ∨ moveId args3 > 253) →
      handleMove bus args3 = ([], ["ERROR: invalid ID"])) ∧
    (∀ args4 : List Char, 0 ≤ speedSp args4 →
      (speedId args4 < 0 ∨ speedId args4 > 253) →
      handleSpeed bus args4 = ([], ["ERROR: invalid ID"])) := by
  refine ⟨?_, ?_, ?_, ?_, ?_, ?_, ?_, ?_, ?_, ?_, ?_, ?_, ?_, ?_, ?_⟩
  · simp only [handlePing]; rw [if_pos h]
  · simp only [handleSetServo]; rw [if_pos h]
  · simp only [handleSetWheel]; rw [if_pos h]
  · simp only [handleReadMode]; rw [if_pos h]
  · simp only [handleReadPos]; rw [if_pos h]
  · simp only [handleStop]; rw [if_pos h]
  · simp only [handleReadSpeed]; rw [if_pos h]
  · simp only [handleEnableTorque]; rw [if_pos h]
  · simp only [handleDisableTorque]; rw [if_pos h]
  · simp only [handleReadLoad]; rw [if_pos h]
  · simp only [handleReadVoltage]; rw [if_pos h]
  · simp only [handleReadTemp]; rw [if_pos h]
  · intro args2 hsp hr
    simp only [handleSetID]
    rw [if_neg (by omega), if_pos hr]
  · intro args3 hd hr
    simp only [handleMove, if_neg hd]
    rw [if_pos hr]
  · intro args4 hsp hr
    simp only [handleSpeed]
    rw [if_neg (by omega), if_pos hr]

/-- Witness for the amended C1 at `PING 300`. -/
theorem idRange_validation_witness :
    (atol (String.toList "300") < 0 ∨ atol (String.toList "300") > 253) ∧
    handlePing busNone (String.toList "300") = ([], ["ERROR: Invalid ID"]) :=
  ⟨by decide,
    (idRange_validation busNone (String.toList "300") (by decide)).1⟩

end Feetech
